import Mathlib

/-!
Verification of the npm dependency analyzer (`src/analyzer.py`).

The analyzer consists of three pieces, embedded here one by one:

* `get_package_info` — one HTTP GET against the registry, with every failure
  mode re-raised as Python's generic `Exception` class carrying a message
  (source lines 16–36);
* `extract_dependencies` — version selection plus the merge of the three
  dependency maps of the selected version record (source lines 38–66);
* `analyze_dependencies` — the orchestrator gluing the two together after a
  truthiness check on the configured package name (source lines 68–84).

Python dictionaries are insertion-ordered with unique keys; they are embedded
as association lists (`Dict α`), with `dget` for `d.get(k)`, `dinsert` for
`d[k] = v` (replace in place if present, else append), and `dupdate` for
`d.update(e)` (iterate `e`'s items in order, setting each).  Python's
exception values are embedded as a class tag plus a message string, since the
source only ever raises the base `Exception` class and distinguishes failure
modes by message text.
-/

/-- Insertion-ordered string-keyed mapping: the embedding of a Python dict. -/
abbrev Dict (α : Type) := List (String × α)

/-- `d.get(k)`: the value bound to `k`, if any (first binding wins; a Python
dict has unique keys, so there is at most one binding). -/
def dget {α : Type} : Dict α → String → Option α
  | [], _ => none
  | (k1, v1) :: t, k => if k = k1 then some v1 else dget t k

/-- `d[k] = v`: replace the value of the first binding of `k` in place,
keeping its position; if `k` is unbound, append the new binding at the end.
This is how a Python dict assignment behaves. -/
def dinsert {α : Type} : Dict α → String → α → Dict α
  | [], k, v => [(k, v)]
  | (k1, v1) :: t, k, v => if k1 = k then (k, v) :: t else (k1, v1) :: dinsert t k v

/-- `d.update(e)`: iterate `e`'s bindings in order, assigning each into `d`. -/
def dupdate {α : Type} (d e : Dict α) : Dict α :=
  e.foldl (fun acc kv => dinsert acc kv.1 kv.2) d

/-- The value of the LAST binding of `k`, if any.  Used to state what
`dupdate` does when the right-hand dict has duplicate keys; on genuine
Python dicts (unique keys) it coincides with `dget`. -/
def dgetLast {α : Type} : Dict α → String → Option α
  | [], _ => none
  | (k1, v1) :: t, k =>
    match dgetLast t k with
    | some v => some v
    | none => if k = k1 then some v1 else none

/-- One published version's manifest subset: the three dependency maps the
analyzer consumes, each possibly absent (`version_info.get(..., {})`). -/
structure VersionRecord where
  dependencies : Option (Dict String)
  devDependencies : Option (Dict String)
  peerDependencies : Option (Dict String)
  deriving DecidableEq

/-- The decoded registry response for one package.  Fields consumed by the
analyzer: the `dist-tags` object (for its `latest` entry) and the `versions`
mapping, each possibly absent (`package_info.get(..., {})`). -/
structure PackageMetadata where
  distTags : Option (Dict String)
  versions : Option (Dict VersionRecord)
  deriving DecidableEq

/-- The empty version record: `versions.get(latest_version, {})` when the
selected key is missing. -/
def emptyVersionRecord : VersionRecord := ⟨none, none, none⟩

/-- `package_info.get('versions', {})`. -/
def versionsOf (pkg : PackageMetadata) : Dict VersionRecord :=
  pkg.versions.getD []

/-- Python truthiness of an optional string: `not x` is true exactly when
`x` is `None` or the empty string. -/
def pyTruthyOptStr : Option String → Bool
  | none => false
  | some s => !(s == "")

/-- The Python exception classes the analyzer can let escape: it only ever
raises the base `Exception` class itself; `indexError` exists so that the
`[-1]` list indexing in the fallback is modelled as genuinely fallible. -/
inductive PyClass where
  | exception
  | indexError
  deriving DecidableEq

/-- A raised Python exception: its class and its message text. -/
structure PyExn where
  cls : PyClass
  msg : String
  deriving DecidableEq

/-- `lst[-1]` on a Python list: the last element, or an `IndexError` when the
list is empty. -/
def pyIndexLast {α : Type} (l : List α) : Except PyExn α :=
  match l.getLast? with
  | some x => Except.ok x
  | none => Except.error ⟨PyClass.indexError, "list index out of range"⟩

/-- Source lines 56–64: read the three dependency maps of the selected
version record (each defaulting to `{}`) and fold them into `all_deps` with
`update`, in the fixed order dependencies, devDependencies,
peerDependencies. -/
def mergeVersionInfo (version_info : VersionRecord) : Dict String :=
  let deps := version_info.dependencies.getD []
  let dev_deps := version_info.devDependencies.getD []
  let peer_deps := version_info.peerDependencies.getD []
  dupdate (dupdate (dupdate [] deps) dev_deps) peer_deps

/-- Source lines 53–66: look the selected version key up in `versions`
(defaulting to the empty record) and merge its dependency maps. -/
def finishExtract (pkg : PackageMetadata) (latest_version : String) : Dict String :=
  mergeVersionInfo ((dget (versionsOf pkg) latest_version).getD emptyVersionRecord)

/-- Source lines 38–66, `NPMAnalyzer.extract_dependencies`, with the one
fallible operation (`list(versions.keys())[-1]`) embedded as such: the
version key selected on line 43 falls back, when `dist-tags.latest` is
falsy, to the last key of a non-empty `versions`, and the whole call returns
`{}` when `versions` is empty too. -/
def extract_dependenciesE (pkg : PackageMetadata) : Except PyExn (Dict String) :=
  let latest0 := dget (pkg.distTags.getD []) "latest"
  if pyTruthyOptStr latest0 then
    Except.ok (finishExtract pkg (latest0.getD ""))
  else if (versionsOf pkg).isEmpty then
    Except.ok []
  else
    match pyIndexLast ((versionsOf pkg).map Prod.fst) with
    | Except.ok v => Except.ok (finishExtract pkg v)
    | Except.error e => Except.error e

/-- The version key `extract_dependencies` works with: `dist-tags.latest`
when that is present and non-empty, otherwise the last key of `versions` in
insertion order, and `none` when `versions` is empty as well (the early
`return dependencies` on line 50). -/
def selectedVersion (pkg : PackageMetadata) : Option String :=
  let latest0 := dget (pkg.distTags.getD []) "latest"
  if pyTruthyOptStr latest0 then latest0
  else ((versionsOf pkg).map Prod.fst).getLast?

/-- `extract_dependencies` as the total function it in fact is (the `[-1]`
indexing is guarded by the `if versions:` check); proven to agree with the
fallible embedding `extract_dependenciesE` below. -/
def extract_dependencies (pkg : PackageMetadata) : Dict String :=
  match selectedVersion pkg with
  | none => []
  | some v => finishExtract pkg v

/-- The body delivered with an HTTP response, as far as the analyzer looks at
it: either it decodes as JSON into a metadata document, or `json.loads`
fails with the given decoder message. -/
inductive Body where
  | json (m : PackageMetadata)
  | malformed (decodeMsg : String)
  deriving DecidableEq

/-- The outcome of `urllib.request.urlopen`: a delivered response with a
status, reason phrase and body; an `HTTPError` raised for a non-2xx status
(as urllib does by default); or a transport-level `URLError`. -/
inductive HttpOutcome where
  | ok (status : Nat) (reason : String) (body : Body)
  | httpError (code : Nat) (reason : String)
  | urlError (details : String)
  deriving DecidableEq

/-- `str()` of a urllib `HTTPError`: `HTTP Error <code>: <reason>`. -/
def strHTTPError (code : Nat) (reason : String) : String :=
  "HTTP Error " ++ (toString code ++ (": " ++ reason))

/-- Source lines 16–36, `NPMAnalyzer.get_package_info`, as a function of the
HTTP outcome for the requested URL.  Every failure is re-raised as the plain
`Exception` class: a 404 `HTTPError` with the not-found message carrying the
package name; any other `HTTPError` with the registry-request message; a
`URLError` with the network message; and both the in-`try` raise for a
delivered non-200 status and a `json.loads` failure are caught by the
final generic handler and re-raised with the unknown-error message. -/
def get_package_info (package_name : String) (out : HttpOutcome) :
    Except PyExn PackageMetadata :=
  match out with
  | HttpOutcome.ok status reason body =>
    if status = 200 then
      match body with
      | Body.json m => Except.ok m
      | Body.malformed decodeMsg =>
        Except.error ⟨PyClass.exception, "Неизвестная ошибка: " ++ decodeMsg⟩
    else
      Except.error ⟨PyClass.exception,
        "Неизвестная ошибка: " ++ ("HTTP " ++ (toString status ++ (": " ++ reason)))⟩
  | HttpOutcome.httpError code reason =>
    if code = 404 then
      Except.error ⟨PyClass.exception,
        "Пакет \x27" ++ (package_name ++ "\x27 не найден в npm registry")⟩
    else
      Except.error ⟨PyClass.exception,
        "Ошибка при запросе к npm registry: " ++ strHTTPError code reason⟩
  | HttpOutcome.urlError details =>
    Except.error ⟨PyClass.exception, "Ошибка сети: " ++ details⟩

/-- Modelled from the spec: section 4.1's prescribed error taxonomy for the
RegistryClient — four distinct typed variants.  This is the refinement
target the spec words describe, to be compared with what the source's
`get_package_info` actually raises. -/
inductive FetchError where
  | notFound (packageName : String)
  | malformedResponse
  | unexpectedStatus (code : Nat) (reason : String)
  | networkError (details : String)
  deriving DecidableEq

/-- Modelled from the spec: section 4.1's `fetch` contract, assigning each
failure mode its own `FetchError` variant. -/
def fetchSpec (packageName : String) (out : HttpOutcome) :
    Except FetchError PackageMetadata :=
  match out with
  | HttpOutcome.ok status reason body =>
    if status = 200 then
      match body with
      | Body.json m => Except.ok m
      | Body.malformed _ => Except.error FetchError.malformedResponse
    else
      Except.error (FetchError.unexpectedStatus status reason)
  | HttpOutcome.httpError code reason =>
    if code = 404 then Except.error (FetchError.notFound packageName)
    else Except.error (FetchError.unexpectedStatus code reason)
  | HttpOutcome.urlError details =>
    Except.error (FetchError.networkError details)

/-- What a call to `analyze_dependencies` leaves behind: the returned value
(or the exception that escaped) together with the names fetched over the
network, in order.  `get_package_info` performs exactly one request per
call, so each invocation of it logs one name. -/
structure AnalyzeTrace where
  result : Except PyExn (Dict String)
  fetchCalls : List String

/-- Source lines 68–84, `NPMAnalyzer.analyze_dependencies`: read
`config.get('package_name')`; if it is falsy (absent or empty), raise the
missing-name exception before any network activity; otherwise fetch the
metadata (one network call, whose exception propagates) and extract the
dependency map.  `net` stands for the state of the network: the HTTP outcome
a GET for the given package name produces. -/
def analyze_dependencies (package_name : Option String)
    (net : String → HttpOutcome) : AnalyzeTrace :=
  if pyTruthyOptStr package_name then
    let n := package_name.getD ""
    match get_package_info n (net n) with
    | Except.error e => ⟨Except.error e, [n]⟩
    | Except.ok info =>
      match extract_dependenciesE info with
      | Except.error e => ⟨Except.error e, [n]⟩
      | Except.ok deps => ⟨Except.ok deps, [n]⟩
  else
    ⟨Except.error ⟨PyClass.exception, "Имя пакета не указано в конфигурации"⟩, []⟩

/-- The spec's section-8 example document: latest tag `1.2.3`, whose record
declares one runtime dependency and nothing else. -/
def pkgC1 : PackageMetadata :=
  ⟨some [("latest", "1.2.3")],
   some [("1.2.3", ⟨some [("a", "^1.0.0")], none, none⟩)]⟩

/-- A document with no `dist-tags` whose two versions are inserted with the
numerically higher one first, so that the last key in insertion order is
neither the first key nor the highest version. -/
def pkgC2 : PackageMetadata :=
  ⟨none,
   some [("0.2.0", ⟨some [("a", "1")], none, none⟩),
         ("0.1.0", ⟨some [("b", "2")], none, none⟩)]⟩

/-- A record declaring `x` both as a runtime dependency and as a peer
dependency, with different version ranges. -/
def recC3 : VersionRecord :=
  ⟨some [("x", "^1.0.0"), ("y", "2")], none, some [("x", "^2.0.0")]⟩

/-- A document whose latest version's record is `recC3`. -/
def pkgC3 : PackageMetadata :=
  ⟨some [("latest", "1.0.0")], some [("1.0.0", recC3)]⟩

/-- A document with no dist-tags and no versions field at all. -/
def pkgC6 : PackageMetadata := ⟨none, none⟩

/-- A document whose latest tag points at a version that does not occur in
its `versions` map. -/
def pkgC7 : PackageMetadata :=
  ⟨some [("latest", "2.0.0")],
   some [("1.0.0", ⟨some [("a", "1")], none, none⟩)]⟩

/-- First of two documents agreeing on the latest tag and on the record it
selects, but disagreeing on every other version. -/
def pkgC9a : PackageMetadata :=
  ⟨some [("latest", "1.0.0")],
   some [("1.0.0", ⟨some [("x", "1")], none, none⟩),
         ("2.0.0", ⟨some [("z", "3")], none, none⟩)]⟩

/-- Second such document: same latest tag, same selected record, different
other versions in a different position. -/
def pkgC9b : PackageMetadata :=
  ⟨some [("latest", "1.0.0")],
   some [("9.9.9", ⟨some [("w", "9")], some [("q", "4")], none⟩),
         ("1.0.0", ⟨some [("x", "1")], none, none⟩)]⟩

/-! ## Lookup lemmas for the dict embedding -/

/-- Looking a key up after a Python dict assignment: the assigned key now
maps to the new value, every other key is untouched. -/
theorem dget_dinsert {α : Type} (d : Dict α) (k0 : String) (v0 : α) (k : String) :
    dget (dinsert d k0 v0) k = if k = k0 then some v0 else dget d k := by
  induction d with
  | nil => simp [dinsert, dget]
  | cons hd t ih =>
    obtain ⟨k1, v1⟩ := hd
    by_cases h1 : k1 = k0
    · subst h1
      by_cases hk : k = k1 <;> simp [dinsert, dget, hk]
    · by_cases hk1 : k = k1
      · subst hk1
        have hk0 : ¬k = k0 := h1
        simp [dinsert, dget, h1, hk0]
      · simp [dinsert, dget, h1, hk1, ih]

/-- Looking a key up after `d.update(e)`: the last binding of the key in `e`
wins; a key unbound in `e` keeps its value from `d`. -/
theorem dget_dupdate {α : Type} (e d : Dict α) (k : String) :
    dget (dupdate d e) k =
      match dgetLast e k with
      | some v => some v
      | none => dget d k := by
  induction e generalizing d with
  | nil => simp [dupdate, dgetLast]
  | cons hd t ih =>
    obtain ⟨k1, v1⟩ := hd
    have step : dupdate d ((k1, v1) :: t) = dupdate (dinsert d k1 v1) t := rfl
    rw [step, ih]
    cases hlast : dgetLast t k with
    | some v => simp [dgetLast, hlast]
    | none =>
      by_cases hk : k = k1
      · subst hk
        simp [dgetLast, hlast, dget_dinsert]
      · simp [dgetLast, hlast, hk, dget_dinsert]

/-- A key that occurs nowhere in the dict looks up to nothing. -/
theorem dget_eq_none_of_not_mem {α : Type} (d : Dict α) (k : String)
    (h : k ∉ d.map Prod.fst) : dget d k = none := by
  induction d with
  | nil => rfl
  | cons hd t ih =>
    obtain ⟨k1, v1⟩ := hd
    simp only [List.map_cons, List.mem_cons] at h
    push_neg at h
    simp [dget, h.1, ih h.2]

/-- On a dict with unique keys — every genuine Python dict — last-binding
lookup and first-binding lookup agree. -/
theorem dgetLast_eq_dget {α : Type} (d : Dict α) (k : String)
    (h : (d.map Prod.fst).Nodup) : dgetLast d k = dget d k := by
  induction d with
  | nil => rfl
  | cons hd t ih =>
    obtain ⟨k1, v1⟩ := hd
    simp only [List.map_cons, List.nodup_cons] at h
    by_cases hk : k = k1
    · subst hk
      have ht : dget t k = none := dget_eq_none_of_not_mem t k h.1
      have ht2 : dgetLast t k = none := by rw [ih h.2, ht]
      simp [dgetLast, dget, ht2]
    · have ih2 := ih h.2
      simp only [dgetLast, dget, if_neg hk, ← ih2]
      cases dgetLast t k <;> rfl

/-- What the merged map of a version record binds a name to: the
peerDependencies binding if there is one, else the devDependencies binding,
else the dependencies binding (last `update` wins). -/
theorem dget_mergeVersionInfo (version_info : VersionRecord) (n : String) :
    dget (mergeVersionInfo version_info) n =
      match dgetLast (version_info.peerDependencies.getD []) n with
      | some v => some v
      | none =>
        match dgetLast (version_info.devDependencies.getD []) n with
        | some v => some v
        | none => dgetLast (version_info.dependencies.getD []) n := by
  show dget (dupdate (dupdate (dupdate [] (version_info.dependencies.getD []))
      (version_info.devDependencies.getD [])) (version_info.peerDependencies.getD [])) n = _
  rw [dget_dupdate, dget_dupdate, dget_dupdate]
  cases dgetLast (version_info.peerDependencies.getD []) n <;>
    cases dgetLast (version_info.devDependencies.getD []) n <;>
      cases dgetLast (version_info.dependencies.getD []) n <;> rfl

/-! ## Bridging lemmas for the extractor -/

/-- A present, non-empty `dist-tags.latest` is the selected version key. -/
theorem selectedVersion_of_latest (pkg : PackageMetadata) (s : String)
    (hl : dget (pkg.distTags.getD []) "latest" = some s) (hs : s ≠ "") :
    selectedVersion pkg = some s := by
  have ht : pyTruthyOptStr (some s) = true := by simp [pyTruthyOptStr, hs]
  simp [selectedVersion, hl, ht]

/-- Once a version key is selected, extraction is the lookup-and-merge of
that key's record. -/
theorem extract_eq_finish (pkg : PackageMetadata) (v : String)
    (h : selectedVersion pkg = some v) :
    extract_dependencies pkg = finishExtract pkg v := by
  simp [extract_dependencies, h]

/-- The fallible embedding never raises: it agrees with the total extractor
on every document. -/
theorem extractE_eq_ok (pkg : PackageMetadata) :
    extract_dependenciesE pkg = Except.ok (extract_dependencies pkg) := by
  unfold extract_dependenciesE extract_dependencies selectedVersion
  cases htr : pyTruthyOptStr (dget (pkg.distTags.getD []) "latest") with
  | true =>
    cases hl : dget (pkg.distTags.getD []) "latest" with
    | none => rw [hl] at htr; simp [pyTruthyOptStr] at htr
    | some s =>
      rw [hl] at htr
      simp [hl, htr]
  | false =>
    cases hemp : (versionsOf pkg).isEmpty with
    | true =>
      have : versionsOf pkg = [] := List.isEmpty_iff.mp hemp
      simp [htr, hemp, this]
    | false =>
      have hne : versionsOf pkg ≠ [] := by
        intro h
        rw [h] at hemp
        simp at hemp
      have hkeys : (versionsOf pkg).map Prod.fst ≠ [] := by
        simp [hne]
      cases hlast : ((versionsOf pkg).map Prod.fst).getLast? with
      | none => exact absurd (List.getLast?_eq_none_iff.mp hlast) hkeys
      | some v => simp [htr, hemp, pyIndexLast, hlast]

/-! ## String lemmas for distinguishing exception messages -/

/-- Taking at most the length of the left operand out of an appended string
reads only the left operand. -/
theorem take_data_append (a x : String) (n : Nat) (h : n ≤ a.data.length) :
    ((a ++ x).data.take n) = a.data.take n := by
  rw [String.data_append a x]
  exact List.take_append_of_le_length h

/-- Two appended strings whose left operands already disagree on an initial
segment are distinct, whatever follows. -/
theorem append_ne_of_take_ne (a x b y : String) (n : Nat)
    (ha : n ≤ a.data.length) (hb : n ≤ b.data.length)
    (hne : a.data.take n ≠ b.data.take n) : a ++ x ≠ b ++ y := by
  intro h
  apply hne
  have hd : (a ++ x).data = (b ++ y).data := by rw [h]
  calc a.data.take n = ((a ++ x).data).take n := (take_data_append a x n ha).symm
    _ = ((b ++ y).data).take n := by rw [hd]
    _ = b.data.take n := take_data_append b y n hb

/-! ## Claim theorems -/

/-- C1: whenever `dist-tags.latest` is present and non-empty, `extract`
selects exactly that string as the version key and returns the merged
dependency maps of `versions[latest]`. -/
theorem extract_latest_tag_selects (pkg : PackageMetadata) (s : String)
    (hl : dget (pkg.distTags.getD []) "latest" = some s) (hs : s ≠ "") :
    selectedVersion pkg = some s ∧
      extract_dependencies pkg =
        mergeVersionInfo ((dget (versionsOf pkg) s).getD emptyVersionRecord) := by
  have hsel := selectedVersion_of_latest pkg s hl hs
  exact ⟨hsel, extract_eq_finish pkg s hsel⟩

/-- C1 witness: on the spec's example document the theorem applies, and the
resulting map is exactly a ↦ ^1.0.0. -/
theorem extract_latest_tag_selects_witness :
    extract_dependencies pkgC1 = [("a", "^1.0.0")] :=
  ((extract_latest_tag_selects pkgC1 "1.2.3" rfl (by decide)).2).trans (by rfl)

/-- C2: when the latest tag is absent or empty and `versions` is non-empty,
`extract` selects the last key of `versions` in insertion order — whatever
key the enumeration yields last — and works with that key's record. -/
theorem extract_fallback_last_key (pkg : PackageMetadata)
    (hl : pyTruthyOptStr (dget (pkg.distTags.getD []) "latest") = false)
    (hv : versionsOf pkg ≠ []) :
    ∃ v, ((versionsOf pkg).map Prod.fst).getLast? = some v ∧
      selectedVersion pkg = some v ∧
      extract_dependencies pkg =
        mergeVersionInfo ((dget (versionsOf pkg) v).getD emptyVersionRecord) := by
  have hkeys : (versionsOf pkg).map Prod.fst ≠ [] := by simp [hv]
  cases hlast : ((versionsOf pkg).map Prod.fst).getLast? with
  | none => exact absurd (List.getLast?_eq_none_iff.mp hlast) hkeys
  | some v =>
    have hsel : selectedVersion pkg = some v := by
      simp [selectedVersion, hl, hlast]
    exact ⟨v, rfl, hsel, extract_eq_finish pkg v hsel⟩

/-- C2 witness: on a document whose versions are inserted higher-first, the
fallback selects `0.1.0` — the last key — not the first and numerically
higher `0.2.0`, and extracts that record's map. -/
theorem extract_fallback_last_key_witness :
    selectedVersion pkgC2 = some "0.1.0" ∧
      selectedVersion pkgC2 ≠ some "0.2.0" ∧
      extract_dependencies pkgC2 = [("b", "2")] := by
  obtain ⟨v, h1, h2, h3⟩ := extract_fallback_last_key pkgC2 rfl (by decide)
  have hv : v = "0.1.0" := by
    have hc : ((versionsOf pkgC2).map Prod.fst).getLast? = some "0.1.0" := by rfl
    rw [hc] at h1
    exact (Option.some.inj h1).symm
  subst hv
  exact ⟨h2, by rw [h2]; decide, h3.trans (by rfl)⟩

/-- C3: on the selected record (whose maps carry the Python-dict unique-key
invariant), the merge goes dependencies, then devDependencies, then
peerDependencies, later entries overwriting earlier ones: every name
resolves to its peerDependencies binding if present, else devDependencies,
else dependencies — so a runtime/peer collision yields the peer value. -/
theorem extract_merge_order (pkg : PackageMetadata) (v : String)
    (rec : VersionRecord)
    (hsel : selectedVersion pkg = some v)
    (hrec : dget (versionsOf pkg) v = some rec)
    (hnd : ((rec.dependencies.getD []).map Prod.fst).Nodup)
    (hndDev : ((rec.devDependencies.getD []).map Prod.fst).Nodup)
    (hndPeer : ((rec.peerDependencies.getD []).map Prod.fst).Nodup) :
    ∀ n, dget (extract_dependencies pkg) n =
      match dget (rec.peerDependencies.getD []) n with
      | some w => some w
      | none =>
        match dget (rec.devDependencies.getD []) n with
        | some w => some w
        | none => dget (rec.dependencies.getD []) n := by
  intro n
  rw [extract_eq_finish pkg v hsel]
  unfold finishExtract
  rw [hrec]
  simp only [Option.getD_some]
  rw [dget_mergeVersionInfo]
  rw [dgetLast_eq_dget _ _ hndPeer, dgetLast_eq_dget _ _ hndDev,
    dgetLast_eq_dget _ _ hnd]

/-- C3 witness: `x` is declared both as a runtime and as a peer dependency
with different ranges; the extracted map binds it to the peer range. -/
theorem extract_merge_order_witness :
    dget (extract_dependencies pkgC3) "x" = some "^2.0.0" := by
  have h := extract_merge_order pkgC3 "1.0.0" recC3 (by rfl) rfl
    (by decide) (by decide) (by decide) "x"
  exact h.trans (by rfl)

/-- C6: with the latest tag absent or empty and `versions` empty or absent,
extraction returns the empty map, and the fallible embedding confirms that
this is a normal return, not a failure. -/
theorem extract_empty_versions (pkg : PackageMetadata)
    (hl : pyTruthyOptStr (dget (pkg.distTags.getD []) "latest") = false)
    (hv : versionsOf pkg = []) :
    extract_dependencies pkg = [] ∧ extract_dependenciesE pkg = Except.ok [] := by
  have hsel : selectedVersion pkg = none := by simp [selectedVersion, hl, hv]
  have h1 : extract_dependencies pkg = [] := by simp [extract_dependencies, hsel]
  exact ⟨h1, (extractE_eq_ok pkg).trans (by rw [h1])⟩

/-- C6 witness: the document with neither dist-tags nor versions extracts to
the empty map without failing. -/
theorem extract_empty_versions_witness :
    extract_dependencies pkgC6 = [] ∧ extract_dependenciesE pkgC6 = Except.ok [] :=
  extract_empty_versions pkgC6 rfl rfl

/-- C7: a selected version key that does not occur in `versions` is treated
as the empty record — all three dependency maps absent — and extraction
returns the empty map rather than failing. -/
theorem extract_missing_version_record (pkg : PackageMetadata) (v : String)
    (hsel : selectedVersion pkg = some v)
    (hmiss : dget (versionsOf pkg) v = none) :
    extract_dependencies pkg = [] ∧ extract_dependenciesE pkg = Except.ok [] := by
  have h1 : extract_dependencies pkg = [] := by
    rw [extract_eq_finish pkg v hsel]
    unfold finishExtract
    rw [hmiss]
    rfl
  exact ⟨h1, (extractE_eq_ok pkg).trans (by rw [h1])⟩

/-- C7 witness: a latest tag pointing at an absent version extracts to the
empty map without failing. -/
theorem extract_missing_version_record_witness :
    extract_dependencies pkgC7 = [] ∧ extract_dependenciesE pkgC7 = Except.ok [] :=
  extract_missing_version_record pkgC7 "2.0.0" rfl rfl

/-- C8: extraction is total: on every metadata document the fallible
embedding — in which the fallback's `[-1]` indexing really can raise — ends
in `Except.ok` with the extracted map, never in an error; every edge case
degrades to an empty or partial map instead of failing. -/
theorem extract_total_no_failure (pkg : PackageMetadata) :
    extract_dependenciesE pkg = Except.ok (extract_dependencies pkg) :=
  extractE_eq_ok pkg

/-- C9: with a present, non-empty latest tag, the extraction result depends
only on the tag and on the single record it selects: two documents agreeing
on `dist-tags.latest` and on `versions[latest]` extract equal maps, whatever
other versions they contain and in whatever order. -/
theorem extract_noninterference_latest (p1 p2 : PackageMetadata) (s : String)
    (h1 : dget (p1.distTags.getD []) "latest" = some s)
    (h2 : dget (p2.distTags.getD []) "latest" = some s)
    (hs : s ≠ "")
    (hv : dget (versionsOf p1) s = dget (versionsOf p2) s) :
    extract_dependencies p1 = extract_dependencies p2 := by
  rw [extract_eq_finish p1 s (selectedVersion_of_latest p1 s h1 hs),
    extract_eq_finish p2 s (selectedVersion_of_latest p2 s h2 hs)]
  unfold finishExtract
  rw [hv]

/-- C9 witness: two documents sharing the latest tag and its record but
differing in all their other versions and in their order extract the same
map. -/
theorem extract_noninterference_latest_witness :
    extract_dependencies pkgC9a = extract_dependencies pkgC9b :=
  extract_noninterference_latest pkgC9a pkgC9b "1.0.0" rfl rfl (by decide) rfl

/-- C5: an absent or empty package name makes `analyze_dependencies` raise
the missing-name exception immediately, with no network call having been
made: the trace's fetch log is empty. -/
theorem analyze_missing_package_name (package_name : Option String)
    (net : String → HttpOutcome)
    (h : pyTruthyOptStr package_name = false) :
    analyze_dependencies package_name net =
      ⟨Except.error ⟨PyClass.exception, "Имя пакета не указано в конфигурации"⟩, []⟩ := by
  simp [analyze_dependencies, h]

/-- C5 witness: both the absent name and the empty name fail with the
missing-name exception and an empty fetch log, whatever the network would
have answered. -/
theorem analyze_missing_package_name_witness :
    analyze_dependencies none (fun _ => HttpOutcome.urlError "unreachable") =
      ⟨Except.error ⟨PyClass.exception, "Имя пакета не указано в конфигурации"⟩, []⟩ ∧
    analyze_dependencies (some "") (fun _ => HttpOutcome.urlError "unreachable") =
      ⟨Except.error ⟨PyClass.exception, "Имя пакета не указано в конфигурации"⟩, []⟩ :=
  ⟨analyze_missing_package_name none (fun _ => HttpOutcome.urlError "unreachable") rfl,
   analyze_missing_package_name (some "") (fun _ => HttpOutcome.urlError "unreachable") rfl⟩

/-- C4 counterexample: the spec's taxonomy assigns a 404 and a transport
failure two different typed variants (`notFound` vs `networkError`), but
the source raises the very same exception class — plain `Exception` — for
both failure modes, so `fetch` does not return distinct typed errors. -/
theorem fetch_not_typed_cex :
    ∃ e1 e2 : PyExn,
      get_package_info "left-pad" (HttpOutcome.httpError 404 "Not Found") =
        Except.error e1 ∧
      get_package_info "left-pad" (HttpOutcome.urlError "connection refused") =
        Except.error e2 ∧
      fetchSpec "left-pad" (HttpOutcome.httpError 404 "Not Found") =
        Except.error (FetchError.notFound "left-pad") ∧
      fetchSpec "left-pad" (HttpOutcome.urlError "connection refused") =
        Except.error (FetchError.networkError "connection refused") ∧
      e1.cls = e2.cls :=
  ⟨⟨PyClass.exception, "Пакет \x27" ++ ("left-pad" ++ "\x27 не найден в npm registry")⟩,
   ⟨PyClass.exception, "Ошибка сети: " ++ "connection refused"⟩,
   rfl, rfl, rfl, rfl, rfl⟩

/-- C4 amended: every failure mode of `get_package_info` raises the same
generic exception class, the modes being distinguished by message text
alone: HTTP 404 raises the not-found message carrying the package name, any
other HTTP error status the registry-request message, a transport failure
the network message, and a 200 response with an undecodable body the
generic unknown-error wrap of the decoder's message (no dedicated
malformed-response variant); the four messages are pairwise distinct
whatever the payload strings. -/
theorem fetch_error_modes_by_message (name r1 r2 d jm : String) (c : Nat)
    (hc : c ≠ 404) :
    ∃ e1 e2 e3 e4 : PyExn,
      get_package_info name (HttpOutcome.httpError 404 r1) = Except.error e1 ∧
      get_package_info name (HttpOutcome.httpError c r2) = Except.error e2 ∧
      get_package_info name (HttpOutcome.urlError d) = Except.error e3 ∧
      get_package_info name (HttpOutcome.ok 200 r1 (Body.malformed jm)) =
        Except.error e4 ∧
      e1.cls = PyClass.exception ∧ e2.cls = PyClass.exception ∧
      e3.cls = PyClass.exception ∧ e4.cls = PyClass.exception ∧
      e1.msg = "Пакет \x27" ++ (name ++ "\x27 не найден в npm registry") ∧
      e1.msg ≠ e2.msg ∧ e1.msg ≠ e3.msg ∧ e1.msg ≠ e4.msg ∧
      e2.msg ≠ e3.msg ∧ e2.msg ≠ e4.msg ∧ e3.msg ≠ e4.msg := by
  refine ⟨⟨PyClass.exception, "Пакет \x27" ++ (name ++ "\x27 не найден в npm registry")⟩,
    ⟨PyClass.exception, "Ошибка при запросе к npm registry: " ++ strHTTPError c r2⟩,
    ⟨PyClass.exception, "Ошибка сети: " ++ d⟩,
    ⟨PyClass.exception, "Неизвестная ошибка: " ++ jm⟩,
    rfl, ?_, rfl, rfl, rfl, rfl, rfl, rfl, rfl, ?_, ?_, ?_, ?_, ?_, ?_⟩
  · simp [get_package_info, hc]
  · exact append_ne_of_take_ne _ _ _ _ 1 (by decide) (by decide) (by decide)
  · exact append_ne_of_take_ne _ _ _ _ 1 (by decide) (by decide) (by decide)
  · exact append_ne_of_take_ne _ _ _ _ 1 (by decide) (by decide) (by decide)
  · exact append_ne_of_take_ne _ _ _ _ 8 (by decide) (by decide) (by decide)
  · exact append_ne_of_take_ne _ _ _ _ 1 (by decide) (by decide) (by decide)
  · exact append_ne_of_take_ne _ _ _ _ 1 (by decide) (by decide) (by decide)

/-- C4 witness: the amended theorem at a concrete 500 status, concrete
reason phrases, transport details and decoder message. -/
theorem fetch_error_modes_by_message_witness :
    ∃ e1 e2 e3 e4 : PyExn,
      get_package_info "left-pad" (HttpOutcome.httpError 404 "Not Found") =
        Except.error e1 ∧
      get_package_info "left-pad" (HttpOutcome.httpError 500 "Internal Server Error") =
        Except.error e2 ∧
      get_package_info "left-pad" (HttpOutcome.urlError "connection refused") =
        Except.error e3 ∧
      get_package_info "left-pad"
          (HttpOutcome.ok 200 "Not Found" (Body.malformed "Expecting value: line 1 column 1 (char 0)")) =
        Except.error e4 ∧
      e1.cls = PyClass.exception ∧ e2.cls = PyClass.exception ∧
      e3.cls = PyClass.exception ∧ e4.cls = PyClass.exception ∧
      e1.msg = "Пакет \x27" ++ ("left-pad" ++ "\x27 не найден в npm registry") ∧
      e1.msg ≠ e2.msg ∧ e1.msg ≠ e3.msg ∧ e1.msg ≠ e4.msg ∧
      e2.msg ≠ e3.msg ∧ e2.msg ≠ e4.msg ∧ e3.msg ≠ e4.msg :=
  fetch_error_modes_by_message "left-pad" "Not Found" "Internal Server Error"
    "connection refused" "Expecting value: line 1 column 1 (char 0)" 500 (by decide)
